import Mathlib

/-!
Verification development for the AUTOCLAUDE daemon core of task-man-64:
the column classifier, task selectors, lease-based claim coordinator
(`src/autoclaude/src/db.ts`) and the poll loop (`src/autoclaude/src/index.ts`),
shallowly embedded as pure Lean functions over an explicit store state.
Timestamps are modelled as natural-number milliseconds; SQL `NULL` as
`Option.none`; each SQL statement as one atomic function from store to store.
-/

namespace AutoClaude

/-! ### Character-level string helpers

JavaScript's `String.prototype.toLowerCase` / `String.prototype.includes`
are embedded over `List Char` so that they evaluate inside the kernel. -/

/-- `name.toLowerCase()` on the character list of a string. -/
def lowerChars (l : List Char) : List Char := l.map Char.toLower

/-- Is the first list a prefix of the second? -/
def isPrefixChars : List Char → List Char → Bool
  | [], _ => true
  | _ :: _, [] => false
  | a :: as, b :: bs => a == b && isPrefixChars as bs

/-- `hay.includes(needle)`: contiguous-substring test. -/
def containsSub : List Char → List Char → Bool
  | hay, needle =>
    if isPrefixChars needle hay then true
    else
      match hay with
      | [] => false
      | _ :: rest => containsSub rest needle

/-- `db.ts` `matchesPattern`: case-insensitive test of `name` against a list
of substring patterns (`patterns.some(p => name.toLowerCase().includes(p))`). -/
def matchesPattern (name : String) (patterns : List String) : Bool :=
  let lower := lowerChars name.data
  patterns.any fun p => containsSub lower p.data

/-- `db.ts` `BACKLOG_PATTERNS`. -/
def BACKLOG_PATTERNS : List String := ["backlog", "todo", "to do", "to-do"]

/-- `db.ts` `IN_PROGRESS_PATTERNS`. -/
def IN_PROGRESS_PATTERNS : List String := ["in progress", "in-progress", "doing", "wip", "working"]

/-- `db.ts` `RESOLVED_PATTERNS`. -/
def RESOLVED_PATTERNS : List String := ["done", "resolved", "complete", "completed", "finished"]

/-! ### Data model (`types.ts` and the store schema) -/

/-- A row of `tasks` (`types.ts` `Task`; `attempt_count` is nullable in the
schema — the selection queries test `attempt_count IS NULL`). -/
structure Task where
  id : String
  text : String
  status : String
  project_id : String
  kanban_column_id : Option String
  pr_url : Option String
  feedback : Option String
  claimed_at : Option Nat
  claimed_by : Option String
  autoclaude_enabled : Bool
  attempt_count : Option Nat
  last_error : Option String
  created_at : Nat
deriving DecidableEq

/-- A row of `projects` (subset the daemon reads). -/
structure Project where
  id : String
  repo_url : Option String
  autoclaude_paused : Bool
deriving DecidableEq

/-- A row of `kanban_columns`; `col_order` embeds the SQL `"order"` column. -/
structure KanbanColumn where
  id : String
  project_id : String
  name : String
  col_order : Nat
deriving DecidableEq

/-- The relational store the daemon polls. -/
structure Store where
  tasks : List Task
  projects : List Project
  kanban_columns : List KanbanColumn
deriving DecidableEq

/-- Environment-sourced configuration (`config.ts` `CONFIG`), restricted to
the fields the coordination core reads. -/
structure Config where
  INSTANCE_ID : String
  POLL_INTERVAL_MS : Nat
  CLAIM_TIMEOUT_MS : Nat
  MAX_RETRY_ATTEMPTS : Nat
  MAX_CONCURRENT : Nat
deriving DecidableEq

/-! ### Column classifier (`db.ts` `getProjectColumns`)

The in-memory TTL cache is elided: on unchanged column data the cached and
re-queried mappings coincide, and every claim here is about the mapping. -/

/-- `db.ts` `ProjectColumns`. -/
structure ProjectColumns where
  backlog : String
  inProgress : String
  resolved : String
deriving DecidableEq

/-- Accumulator of the classification loop (the three `let` variables). -/
structure RoleAcc where
  backlog : Option String
  inProgress : Option String
  resolved : Option String
deriving DecidableEq

/-- One iteration of the `for (const row of rows)` loop in
`getProjectColumns`: an `else if` chain, first match per role wins, a column
is assigned to at most one role. -/
def classifyStep (acc : RoleAcc) (c : KanbanColumn) : RoleAcc :=
  if acc.backlog.isNone && matchesPattern c.name BACKLOG_PATTERNS then
    { acc with backlog := some c.id }
  else if acc.inProgress.isNone && matchesPattern c.name IN_PROGRESS_PATTERNS then
    { acc with inProgress := some c.id }
  else if acc.resolved.isNone && matchesPattern c.name RESOLVED_PATTERNS then
    { acc with resolved := some c.id }
  else acc

/-- The rows `SELECT id, name FROM kanban_columns WHERE project_id = $pid
ORDER BY "order" ASC` returns (a stable sort models the SQL ordering). -/
def columnRows (s : Store) (projectId : String) : List KanbanColumn :=
  (s.kanban_columns.filter fun c => c.project_id == projectId).insertionSort
    (fun a b => a.col_order ≤ b.col_order)

/-- Body of `getProjectColumns` on the fetched rows: pattern pass, then the
positional fallback (first / middle `floor(n/2)` / last), then the null check. -/
def getProjectColumnsOf (rows : List KanbanColumn) : Option ProjectColumns :=
  let acc := rows.foldl classifyStep ⟨none, none, none⟩
  let backlog := match acc.backlog with
    | some b => some b
    | none => rows.head?.map (·.id)
  let resolved := match acc.resolved with
    | some r => some r
    | none => rows.getLast?.map (·.id)
  let inProgress := match acc.inProgress with
    | some i => some i
    | none =>
      if rows.length > 1 then (rows.get? (rows.length / 2)).map (·.id) else none
  match backlog, inProgress, resolved with
  | some b, some i, some r => some ⟨b, i, r⟩
  | _, _, _ => none

/-- `db.ts` `getProjectColumns` (cache elided, see above). -/
def getProjectColumns (s : Store) (projectId : String) : Option ProjectColumns :=
  getProjectColumnsOf (columnRows s projectId)

example :
    getProjectColumnsOf
      [⟨"c1", "p", "Backlog", 0⟩, ⟨"c2", "p", "Doing", 1⟩, ⟨"c3", "p", "Done", 2⟩] =
    some ⟨"c1", "c2", "c3"⟩ := by decide

example :
    getProjectColumnsOf
      [⟨"c1", "p", "Ideas", 0⟩, ⟨"c2", "p", "Doing", 1⟩, ⟨"c3", "p", "Done", 2⟩] =
    some ⟨"c1", "c2", "c3"⟩ := by decide

example : getProjectColumnsOf [] = none := by decide

/-! ### Task selectors (`db.ts` `getClaimableTasks`, `getFeedbackTasks`) -/

/-- `SELECT ... FROM projects WHERE id = $pid` (first matching row). -/
def findProject (s : Store) (projectId : String) : Option Project :=
  s.projects.find? fun p => p.id == projectId

/-- `SELECT ... FROM kanban_columns WHERE id = $cid` (first matching row). -/
def findColumn (s : Store) (columnId : String) : Option KanbanColumn :=
  s.kanban_columns.find? fun c => c.id == columnId

/-- The stale-lease cutoff both selectors and `claimTask` compare against:
`new Date(Date.now() - CONFIG.CLAIM_TIMEOUT_MS)`. -/
def claimCutoff (now : Nat) (cfg : Config) : Nat := now - cfg.CLAIM_TIMEOUT_MS

/-- SQL `(claimed_at IS NULL OR claimed_at < $claimTimeout)`. -/
def leaseFree (t : Task) (cutoff : Nat) : Bool :=
  match t.claimed_at with
  | none => true
  | some a => a < cutoff

/-- SQL `(attempt_count IS NULL OR attempt_count < $MAX_RETRY_ATTEMPTS)`. -/
def attemptOk (t : Task) (maxRetry : Nat) : Bool :=
  match t.attempt_count with
  | none => true
  | some n => n < maxRetry

/-- The `JOIN`s plus `WHERE` clause of the `getClaimableTasks` query: the
task's project and current column rows must exist, and the task must be
enabled, in a repo-configured un-paused project, lease-free (or stale) and
under the retry ceiling. -/
def claimableWhere (s : Store) (cfg : Config) (now : Nat) (t : Task) : Bool :=
  match findProject s t.project_id, t.kanban_column_id.bind (findColumn s) with
  | some p, some _ =>
    t.autoclaude_enabled && p.repo_url.isSome && !p.autoclaude_paused &&
    leaseFree t (claimCutoff now cfg) && attemptOk t cfg.MAX_RETRY_ATTEMPTS
  | _, _ => false

/-- SQL `(t.feedback IS NOT NULL AND t.feedback != '')`. -/
def feedbackPresent (t : Task) : Bool :=
  match t.feedback with
  | none => false
  | some f => !(f == "")

/-- The `WHERE` clause of the `getFeedbackTasks` query: the claimable base
plus `pr_url IS NOT NULL` and non-empty `feedback`. -/
def feedbackWhere (s : Store) (cfg : Config) (now : Nat) (t : Task) : Bool :=
  t.pr_url.isSome && feedbackPresent t && claimableWhere s cfg now t

/-- SQL `ORDER BY t.created_at ASC` (stable sort models the SQL ordering). -/
def orderByCreated (ts : List Task) : List Task :=
  ts.insertionSort fun a b => a.created_at ≤ b.created_at

/-- Post-query filter of `getClaimableTasks`: the row's current column name
must match a backlog pattern and `getProjectColumns` must return a mapping.
Note the code tests the column NAME against `BACKLOG_PATTERNS` directly; it
does not compare the column id with the classifier's backlog role. -/
def keepBacklog (s : Store) (t : Task) : Bool :=
  match t.kanban_column_id.bind (findColumn s) with
  | some c => matchesPattern c.name BACKLOG_PATTERNS && (getProjectColumns s t.project_id).isSome
  | none => false

/-- Post-query filter of `getFeedbackTasks`: current column name must match
an in-progress pattern and `getProjectColumns` must return a mapping. -/
def keepInProgress (s : Store) (t : Task) : Bool :=
  match t.kanban_column_id.bind (findColumn s) with
  | some c => matchesPattern c.name IN_PROGRESS_PATTERNS && (getProjectColumns s t.project_id).isSome
  | none => false

/-- The accumulation loop of `getClaimableTasks`: push each row passing
`keep`, and break once the accumulated length reaches `MAX_CONCURRENT`
(the length test runs after the push, so with `MAX_CONCURRENT = 0` the loop
still returns the first passing row, exactly as the JS loop does). -/
def takeWithCap (keep : Task → Bool) (maxC : Nat) : List Task → List Task → List Task
  | acc, [] => acc.reverse
  | acc, t :: rest =>
    if keep t then
      if maxC ≤ (t :: acc).length then (t :: acc).reverse
      else takeWithCap keep maxC (t :: acc) rest
    else takeWithCap keep maxC acc rest

/-- `db.ts` `getClaimableTasks`: query across all projects, then filter to
backlog-named columns, truncated at `MAX_CONCURRENT`. -/
def getClaimableTasks (s : Store) (cfg : Config) (now : Nat) : List Task :=
  takeWithCap (keepBacklog s) cfg.MAX_CONCURRENT []
    (orderByCreated (s.tasks.filter (claimableWhere s cfg now)))

/-- `db.ts` `getFeedbackTasks`: query across all projects, then filter to
in-progress-named columns (no truncation in this loop). -/
def getFeedbackTasks (s : Store) (cfg : Config) (now : Nat) : List Task :=
  (orderByCreated (s.tasks.filter (feedbackWhere s cfg now))).filter (keepInProgress s)

/-! ### Claim coordinator (`db.ts` mutations)

Each SQL `UPDATE` is one atomic store-to-store function. -/

/-- The `WHERE` clause of the `claimTask` update. -/
def claimCond (taskId : String) (cutoff : Nat) (t : Task) : Bool :=
  t.id == taskId && leaseFree t cutoff

/-- `db.ts` `claimTask`. Its TS signature takes `inProgressColumnId : string`,
but the poll loop (`index.ts`) invokes it as `db.claimTask(task.id)` with the
argument omitted, so the embedded parameter is an `Option`: `some c` models a
call supplying column `c`, `none` models the omitted argument (JS `undefined`,
serialized as SQL `NULL`). Returns `result.length > 0` (whether the
conditional update affected a row) together with the updated store. -/
def claimTask (s : Store) (cfg : Config) (now : Nat) (taskId : String)
    (inProgressColumnId : Option String) : Bool × Store :=
  let cutoff := claimCutoff now cfg
  (s.tasks.any (claimCond taskId cutoff),
   { s with
     tasks := s.tasks.map fun t =>
       if claimCond taskId cutoff t then
         { t with
           claimed_at := some now
           claimed_by := some cfg.INSTANCE_ID
           kanban_column_id := inProgressColumnId }
       else t })

/-- `db.ts` `resolveTask`: move to the resolved column, set `pr_url`, clear
`feedback`, `last_error` and the lease. -/
def resolveTask (s : Store) (taskId prUrl resolvedColumnId : String) : Store :=
  { s with
    tasks := s.tasks.map fun t =>
      if t.id == taskId then
        { t with
          kanban_column_id := some resolvedColumnId
          pr_url := some prUrl
          feedback := none
          last_error := none
          claimed_at := none
          claimed_by := none }
      else t }

/-- `db.ts` `recordError`: set `last_error`, increment `attempt_count`
(`COALESCE(attempt_count, 0) + 1`), clear the lease, move back to backlog. -/
def recordError (s : Store) (taskId error backlogColumnId : String) : Store :=
  { s with
    tasks := s.tasks.map fun t =>
      if t.id == taskId then
        { t with
          last_error := some error
          attempt_count := some (t.attempt_count.getD 0 + 1)
          claimed_at := none
          claimed_by := none
          kanban_column_id := some backlogColumnId }
      else t }

/-- `db.ts` `recordFeedbackError`: set `last_error`, increment
`attempt_count`, clear the lease; the column (and every other field,
`feedback` included) is not touched. -/
def recordFeedbackError (s : Store) (taskId error : String) : Store :=
  { s with
    tasks := s.tasks.map fun t =>
      if t.id == taskId then
        { t with
          last_error := some error
          attempt_count := some (t.attempt_count.getD 0 + 1)
          claimed_at := none
          claimed_by := none }
      else t }

/-- `db.ts` `clearFeedback`. -/
def clearFeedback (s : Store) (taskId : String) : Store :=
  { s with
    tasks := s.tasks.map fun t =>
      if t.id == taskId then { t with feedback := none } else t }

/-! ### Poll loop (`index.ts` `poll` and `main`)

One cycle is embedded as a function that records the sequence of
`db.claimTask` invocations as events; the externally-effectful worker
(`processFeedbackTask` / `processNewTask`, whose source is out of the
coordination core) is a parameter acting on the store. Wall-clock time is
frozen at `now` for the cycle. -/

/-- One `db.claimTask` invocation during a cycle, tagged with the phase that
issued it (`isFeedback = true` for the feedback-task loop). -/
structure PollEvent where
  taskId : String
  isFeedback : Bool
deriving DecidableEq

/-- One of the two `for` loops in `poll`: claim each selected task (the call
site passes no column argument, hence `none`) and, when the claim returned
true, run the worker on it. -/
def runPhase (cfg : Config) (now : Nat) (isFb : Bool) (process : Task → Store → Store) :
    List Task → Store → List PollEvent → Store × List PollEvent
  | [], s, tr => (s, tr)
  | t :: ts, s, tr =>
    let r := claimTask s cfg now t.id none
    let s2 := if r.1 then process t r.2 else r.2
    runPhase cfg now isFb process ts s2 (tr ++ [⟨t.id, isFb⟩])

/-- The body of `poll`'s try-block: fetch feedback tasks and claim+process
each, then fetch claimable tasks and claim+process each. -/
def pollCycle (cfg : Config) (now : Nat) (processFeedbackTask processNewTask : Task → Store → Store)
    (s0 : Store) : Store × List PollEvent :=
  let fbs := getFeedbackTasks s0 cfg now
  let r1 := runPhase cfg now true processFeedbackTask fbs s0 []
  let news := getClaimableTasks r1.1 cfg now
  runPhase cfg now false processNewTask news r1.1 r1.2

/-- `index.ts` `MAX_BACKOFF_MS` (5 minutes). -/
def MAX_BACKOFF_MS : Nat := 300000

/-- The backoff computation in `poll`'s catch-block, at a given value of the
(already incremented) `consecutiveErrors` counter:
`Math.min(POLL_INTERVAL_MS * Math.pow(2, consecutiveErrors), MAX_BACKOFF_MS)`. -/
def pollBackoff (cfg : Config) (consecutiveErrors : Nat) : Nat :=
  min (cfg.POLL_INTERVAL_MS * 2 ^ consecutiveErrors) MAX_BACKOFF_MS

/-- `poll`'s effect on the `consecutiveErrors` counter and its return value
(the extra delay): an erroring cycle increments the counter and returns the
backoff; a successful cycle resets the counter and returns 0. -/
def pollOutcome (cfg : Config) (consecutiveErrors : Nat) (cycleErrored : Bool) : Nat × Nat :=
  if cycleErrored then
    (consecutiveErrors + 1, pollBackoff cfg (consecutiveErrors + 1))
  else (0, 0)

/-- `main`'s wait between cycles:
`setTimeout(resolve, CONFIG.POLL_INTERVAL_MS + extraDelay)`. -/
def nextWait (cfg : Config) (extraDelay : Nat) : Nat :=
  cfg.POLL_INTERVAL_MS + extraDelay

/-- The actual wall-clock wait after a cycle, composing `poll` and `main`. -/
def waitAfterCycle (cfg : Config) (consecutiveErrors : Nat) (cycleErrored : Bool) : Nat :=
  nextWait cfg (pollOutcome cfg consecutiveErrors cycleErrored).2

/-! ### Concrete fixtures for scenario evaluation -/

/-- Configuration of a first daemon instance (the `config.ts` defaults). -/
def cfgA : Config :=
  { INSTANCE_ID := "autoclaude-1", POLL_INTERVAL_MS := 10000,
    CLAIM_TIMEOUT_MS := 3600000, MAX_RETRY_ATTEMPTS := 3, MAX_CONCURRENT := 1 }

/-- A second daemon instance with a distinct identifier. -/
def cfgB : Config := { cfgA with INSTANCE_ID := "autoclaude-2" }

/-- A configured, un-paused project. -/
def sampleProject : Project :=
  { id := "p", repo_url := some "https://github.com/u/r", autoclaude_paused := false }

/-- A paused project with no repo URL. -/
def pausedProject : Project :=
  { id := "q", repo_url := none, autoclaude_paused := true }

/-- Columns of the §8 scenario: `[("c1","Backlog"),("c2","Doing"),("c3","Done")]`. -/
def backlogCol : KanbanColumn := ⟨"c1", "p", "Backlog", 0⟩

/-- See `backlogCol`. -/
def doingCol : KanbanColumn := ⟨"c2", "p", "Doing", 1⟩

/-- See `backlogCol`. -/
def doneCol : KanbanColumn := ⟨"c3", "p", "Done", 2⟩

/-- A first column whose name matches no role pattern, so that it can only
receive the backlog role through the positional fallback. -/
def ideasCol : KanbanColumn := ⟨"c1", "p", "Ideas", 0⟩

/-- Field defaults for building concrete task rows. -/
def baseTask : Task :=
  { id := "t", text := "", status := "todo", project_id := "p",
    kanban_column_id := none, pr_url := none, feedback := none,
    claimed_at := none, claimed_by := none, autoclaude_enabled := true,
    attempt_count := some 0, last_error := none, created_at := 100 }

/-- Task X of the §8 scenario: enabled, unclaimed, in the backlog column. -/
def taskX : Task := { baseTask with id := "X", text := "do things", kanban_column_id := some "c1" }

/-- The §8 scenario store. -/
def scenario8Store : Store :=
  ⟨[taskX], [sampleProject], [backlogCol, doingCol, doneCol]⟩

/-- An otherwise-eligible task sitting in the fallback-only backlog column. -/
def taskI : Task := { baseTask with id := "I", kanban_column_id := some "c1" }

/-- Store whose backlog column gets its role only via the positional fallback. -/
def fallbackStore : Store :=
  ⟨[taskI], [sampleProject], [ideasCol, doingCol, doneCol]⟩

/-- A feedback task: resolved once (`pr_url` set), sent back with non-empty
`feedback`, sitting in the in-progress column. -/
def taskF : Task :=
  { baseTask with
    id := "F"
    kanban_column_id := some "c2"
    pr_url := some "https://github.com/u/r/pull/1"
    feedback := some "please fix"
    created_at := 50 }

/-- Store with exactly one claimable feedback task and one claimable new task. -/
def mixedStore : Store :=
  ⟨[taskF, taskX], [sampleProject], [backlogCol, doingCol, doneCol]⟩

/-- Task Y, claimed by instance 1 at time 0. -/
def taskY : Task :=
  { baseTask with
    id := "Y"
    kanban_column_id := some "c2"
    claimed_at := some 0
    claimed_by := some "autoclaude-1" }

/-- Store holding the task with the (eventually stale) lease. -/
def staleStore : Store :=
  ⟨[taskY], [sampleProject], [backlogCol, doingCol, doneCol]⟩

/-- A task failing every §3 claimability condition except the lease: disabled,
in a paused repo-less project, at the retry ceiling, in the resolved column. -/
def taskD : Task :=
  { baseTask with
    id := "D"
    project_id := "q"
    autoclaude_enabled := false
    attempt_count := some 99
    kanban_column_id := some "c3" }

/-- Store for the ineligible-but-claimable check. -/
def ineligibleStore : Store :=
  ⟨[taskD], [pausedProject], [backlogCol, doingCol, doneCol]⟩

/-- A task at the retry ceiling in an otherwise fully eligible position. -/
def taskM : Task := { baseTask with id := "M", kanban_column_id := some "c1", attempt_count := some 3 }

/-- Store for the retry-ceiling check. -/
def maxedStore : Store :=
  ⟨[taskM], [sampleProject], [backlogCol, doingCol, doneCol]⟩

example : getClaimableTasks scenario8Store cfgA 4000000 = [taskX] := by decide

example : getFeedbackTasks mixedStore cfgA 4000000 = [taskF] := by decide

example : getClaimableTasks fallbackStore cfgA 4000000 = [] := by decide

/-! ### Helper lemmas -/

/-- Anything produced by the capped accumulation loop came from the
accumulator or is a list element passing the filter. -/
theorem mem_takeWithCap {keep : Task → Bool} {maxC : Nat} :
    ∀ {l acc : List Task} {x : Task}, x ∈ takeWithCap keep maxC acc l →
      x ∈ acc ∨ (x ∈ l ∧ keep x = true) := by
  intro l
  induction l with
  | nil =>
    intro acc x h
    simp only [takeWithCap, List.mem_reverse] at h
    exact Or.inl h
  | cons t rest ih =>
    intro acc x h
    simp only [takeWithCap] at h
    by_cases hk : keep t = true
    · rw [if_pos hk] at h
      by_cases hc : maxC ≤ (t :: acc).length
      · rw [if_pos hc] at h
        rw [List.mem_reverse, List.mem_cons] at h
        rcases h with h | h
        · exact Or.inr ⟨by simp [h], by rwa [h]⟩
        · exact Or.inl h
      · rw [if_neg hc] at h
        rcases ih h with h | ⟨hm, hx⟩
        · rw [List.mem_cons] at h
          rcases h with h | h
          · exact Or.inr ⟨by simp [h], by rwa [h]⟩
          · exact Or.inl h
        · exact Or.inr ⟨List.mem_cons_of_mem _ hm, hx⟩
    · rw [if_neg hk] at h
      rcases ih h with h | ⟨hm, hx⟩
      · exact Or.inl h
      · exact Or.inr ⟨List.mem_cons_of_mem _ hm, hx⟩

/-- Membership in `getClaimableTasks` forces membership in the store, the
query's `WHERE` clause, and the backlog-name post-filter. -/
theorem mem_getClaimableTasks {s : Store} {cfg : Config} {now : Nat} {t : Task}
    (h : t ∈ getClaimableTasks s cfg now) :
    t ∈ s.tasks ∧ claimableWhere s cfg now t = true ∧ keepBacklog s t = true := by
  rcases mem_takeWithCap h with h | ⟨hm, hk⟩
  · simp at h
  · rw [orderByCreated, List.mem_insertionSort, List.mem_filter] at hm
    exact ⟨hm.1, hm.2, hk⟩

/-- Membership in `getFeedbackTasks` is exactly: in the store, passing the
query's `WHERE` clause, and passing the in-progress-name post-filter. -/
theorem mem_getFeedbackTasks {s : Store} {cfg : Config} {now : Nat} {t : Task} :
    t ∈ getFeedbackTasks s cfg now ↔
      t ∈ s.tasks ∧ feedbackWhere s cfg now t = true ∧ keepInProgress s t = true := by
  rw [getFeedbackTasks, List.mem_filter, orderByCreated, List.mem_insertionSort,
    List.mem_filter, and_assoc]

/-- After a successful claim, every task row bearing the claimed id carries
the claim's timestamp (id uniqueness closes the race). -/
theorem claimTask_pins_claimed_at {s : Store} {cfg : Config} {now : Nat} {taskId : String}
    {col : Option String} (hnodup : (s.tasks.map Task.id).Nodup)
    (hok : (claimTask s cfg now taskId col).1 = true) :
    ∀ u ∈ (claimTask s cfg now taskId col).2.tasks, u.id = taskId → u.claimed_at = some now := by
  intro u hu hid
  simp only [claimTask, List.any_eq_true] at hok
  obtain ⟨w, hw, hcw⟩ := hok
  simp only [claimTask, List.mem_map] at hu
  obtain ⟨t0, ht0, hmap⟩ := hu
  by_cases hc : claimCond taskId (claimCutoff now cfg) t0 = true
  · rw [if_pos hc] at hmap
    rw [← hmap]
  · rw [if_neg hc] at hmap
    subst hmap
    have hwid : w.id = taskId := by
      have := hcw
      simp only [claimCond, Bool.and_eq_true, beq_iff_eq] at this
      exact this.1
    have : t0 = w := List.inj_on_of_nodup_map hnodup ht0 hw (by rw [hid, hwid])
    rw [this] at hc
    exact absurd hcw hc

/-! ### Claims about the claim coordinator -/

/-- C1: for any task and any two claim attempts, serialized by the store,
issued by instances with distinct identifiers within the claim-timeout window
of one another, at most one `claimTask` call returns true. -/
theorem claim_mutual_exclusion (s : Store) (cfg1 cfg2 : Config) (t1 t2 : Nat)
    (taskId : String) (col1 col2 : Option String)
    (hnodup : (s.tasks.map Task.id).Nodup)
    (hinst : cfg1.INSTANCE_ID ≠ cfg2.INSTANCE_ID)
    (hD : cfg2.CLAIM_TIMEOUT_MS = cfg1.CLAIM_TIMEOUT_MS)
    (hwin1 : t2 ≤ t1 + cfg1.CLAIM_TIMEOUT_MS)
    (hwin2 : t1 ≤ t2 + cfg1.CLAIM_TIMEOUT_MS) :
    ¬((claimTask s cfg1 t1 taskId col1).1 = true ∧
      (claimTask (claimTask s cfg1 t1 taskId col1).2 cfg2 t2 taskId col2).1 = true) := by
  rintro ⟨h1, h2⟩
  have hrepr : (claimTask (claimTask s cfg1 t1 taskId col1).2 cfg2 t2 taskId col2).1 =
      (claimTask s cfg1 t1 taskId col1).2.tasks.any (claimCond taskId (claimCutoff t2 cfg2)) := rfl
  rw [hrepr, List.any_eq_true] at h2
  obtain ⟨u, hu, hcu⟩ := h2
  simp only [claimCond, Bool.and_eq_true, beq_iff_eq] at hcu
  have hpin := claimTask_pins_claimed_at hnodup h1 u hu hcu.1
  have hlf := hcu.2
  rw [leaseFree, hpin] at hlf
  simp only [claimCutoff, hD, decide_eq_true_eq] at hlf
  omega

/-- C1 witness: two instances race for task X five milliseconds apart. -/
theorem claim_mutual_exclusion_witness :
    ¬((claimTask scenario8Store cfgA 4000000 "X" (some "c2")).1 = true ∧
      (claimTask (claimTask scenario8Store cfgA 4000000 "X" (some "c2")).2
        cfgB 4000005 "X" (some "c2")).1 = true) :=
  claim_mutual_exclusion scenario8Store cfgA cfgB 4000000 4000005 "X" (some "c2") (some "c2")
    (by decide) (by decide) (by decide) (by decide) (by decide)

/-- C2: the poll loop invokes `db.claimTask(task.id)` without the in-progress
column id its signature requires; evaluated on the §8 scenario, that call
succeeds but leaves task X's `kanban_column_id` NULL rather than "c2" (the
lease fields themselves are set as specified). -/
theorem pollClaim_nulls_column :
    (claimTask scenario8Store cfgA 4000000 "X" none).1 = true ∧
    ((claimTask scenario8Store cfgA 4000000 "X" none).2.tasks.find? fun t => t.id == "X").map
      Task.kanban_column_id = some none ∧
    ((claimTask scenario8Store cfgA 4000000 "X" none).2.tasks.find? fun t => t.id == "X").map
      Task.claimed_by = some (some "autoclaude-1") ∧
    ((claimTask scenario8Store cfgA 4000000 "X" none).2.tasks.find? fun t => t.id == "X").map
      Task.claimed_at = some (some 4000000) := by decide

/-- C5 counterexample: task Y was claimed at time 0 with claim-timeout
3600000 ms; a different instance's claim attempt at exactly t+D = 3600000
returns false, and the lease condition of the selection queries also fails
there — the code's comparison is strict. -/
theorem claim_at_exact_expiry_fails :
    (claimTask staleStore cfgB 3600000 "Y" (some "c2")).1 = false ∧
    leaseFree taskY (claimCutoff 3600000 cfgB) = false := by decide

/-- C5 (amended): a task claimed at time `tc` and never resolved is
reclaimable by a different instance at any time strictly greater than
`tc + D`, and it satisfies the lease condition of the selection queries
there. -/
theorem stale_lease_reclaimable (s : Store) (cfg1 cfg2 : Config) (u : Task)
    (tc now : Nat) (col : Option String)
    (hu : u ∈ s.tasks) (hc : u.claimed_at = some tc)
    (hinst : cfg1.INSTANCE_ID ≠ cfg2.INSTANCE_ID)
    (hD : cfg2.CLAIM_TIMEOUT_MS = cfg1.CLAIM_TIMEOUT_MS)
    (hnow : tc + cfg1.CLAIM_TIMEOUT_MS < now) :
    (claimTask s cfg2 now u.id col).1 = true ∧
    leaseFree u (claimCutoff now cfg2) = true := by
  have hlf : leaseFree u (claimCutoff now cfg2) = true := by
    rw [leaseFree, hc]
    simp only [claimCutoff, hD, decide_eq_true_eq]
    omega
  refine ⟨?_, hlf⟩
  have hrepr : (claimTask s cfg2 now u.id col).1 =
      s.tasks.any (claimCond u.id (claimCutoff now cfg2)) := rfl
  rw [hrepr, List.any_eq_true]
  exact ⟨u, hu, by simp [claimCond, hlf]⟩

/-- C5 witness: one millisecond past expiry, instance 2 reclaims task Y. -/
theorem stale_lease_reclaimable_witness :
    (claimTask staleStore cfgB 3600001 taskY.id (some "c2")).1 = true ∧
    leaseFree taskY (claimCutoff 3600001 cfgB) = true :=
  stale_lease_reclaimable staleStore cfgA cfgB taskY 0 3600001 (some "c2")
    (by decide) (by decide) (by decide) (by decide) (by decide)

/-- C10: `claimTask` succeeds for any existing task whose lease is absent or
stale, with no hypothesis on the enabled flag, project pause state, repo URL,
attempt count or column — §3 claimability is enforced only by the selection
queries. -/
theorem claim_ignores_eligibility (s : Store) (cfg : Config) (now : Nat) (t : Task)
    (col : Option String) (ht : t ∈ s.tasks)
    (hlease : leaseFree t (claimCutoff now cfg) = true) :
    (claimTask s cfg now t.id col).1 = true := by
  have hrepr : (claimTask s cfg now t.id col).1 =
      s.tasks.any (claimCond t.id (claimCutoff now cfg)) := rfl
  rw [hrepr, List.any_eq_true]
  exact ⟨t, ht, by simp [claimCond, hlease]⟩

/-- C10 witness: a disabled task at the retry ceiling, in a resolved column
of a paused repo-less project, is still claimed successfully. -/
theorem claim_ignores_eligibility_witness :
    (claimTask ineligibleStore cfgA 4000000 taskD.id (some "c2")).1 = true :=
  claim_ignores_eligibility ineligibleStore cfgA 4000000 taskD (some "c2")
    (by decide) (by decide)

/-! ### Claims about the task selectors -/

/-- A `claimableWhere`-passing task passes `attemptOk`. -/
theorem claimableWhere_attemptOk {s : Store} {cfg : Config} {now : Nat} {t : Task}
    (h : claimableWhere s cfg now t = true) :
    attemptOk t cfg.MAX_RETRY_ATTEMPTS = true := by
  rw [claimableWhere] at h
  rcases hp : findProject s t.project_id with _ | p <;> rw [hp] at h
  · simp at h
  · rcases hcb : t.kanban_column_id.bind (findColumn s) with _ | c <;> rw [hcb] at h
    · simp at h
    · simp only [Bool.and_eq_true] at h
      exact h.2

/-- A `feedbackWhere`-passing task passes `attemptOk`. -/
theorem feedbackWhere_attemptOk {s : Store} {cfg : Config} {now : Nat} {t : Task}
    (h : feedbackWhere s cfg now t = true) :
    attemptOk t cfg.MAX_RETRY_ATTEMPTS = true := by
  rw [feedbackWhere] at h
  simp only [Bool.and_eq_true] at h
  exact claimableWhere_attemptOk h.2

/-- C3 counterexample: in a project whose first column is named "Ideas"
(no pattern match), the classifier assigns that column the backlog role via
the positional fallback, task I sits in it and passes the query's eligibility
clause, yet `getClaimableTasks` returns nothing — selection tests the column
NAME against the backlog patterns, not the classifier's role assignment. -/
theorem fallback_role_not_selected :
    (getProjectColumns fallbackStore "p").map ProjectColumns.backlog = some "c1" ∧
    taskI ∈ fallbackStore.tasks ∧
    taskI.kanban_column_id = some "c1" ∧
    claimableWhere fallbackStore cfgA 4000000 taskI = true ∧
    getClaimableTasks fallbackStore cfgA 4000000 = [] := by decide

/-- C3 (amended): a task is returned by `getClaimableTasks` only if — and by
`getFeedbackTasks` exactly when otherwise eligible and — its current column's
name matches the respective pattern set and the classifier yields a mapping
for its project; columns holding a role only through the positional fallback
do not qualify. -/
theorem selectors_follow_name_patterns (s : Store) (cfg : Config) (now : Nat) :
    (∀ t ∈ getClaimableTasks s cfg now,
      t ∈ s.tasks ∧ claimableWhere s cfg now t = true ∧ keepBacklog s t = true) ∧
    (∀ t, t ∈ getFeedbackTasks s cfg now ↔
      t ∈ s.tasks ∧ feedbackWhere s cfg now t = true ∧ keepInProgress s t = true) :=
  ⟨fun _ ht => mem_getClaimableTasks ht, fun _ => mem_getFeedbackTasks⟩

/-- C3 witness: the pattern-named in-progress column does qualify — the
feedback task of the mixed store is selected. -/
theorem selectors_follow_name_patterns_witness :
    taskF ∈ getFeedbackTasks mixedStore cfgA 4000000 :=
  ((selectors_follow_name_patterns mixedStore cfgA 4000000).2 taskF).mpr (by decide)

/-- C8: a task whose `attempt_count` has reached `MAX_RETRY_ATTEMPTS` is
returned by neither selector, whatever its other fields. -/
theorem retry_ceiling_excludes (s : Store) (cfg : Config) (now : Nat) (t : Task) (n : Nat)
    (hn : t.attempt_count = some n) (hmax : cfg.MAX_RETRY_ATTEMPTS ≤ n) :
    t ∉ getClaimableTasks s cfg now ∧ t ∉ getFeedbackTasks s cfg now := by
  have hatt : attemptOk t cfg.MAX_RETRY_ATTEMPTS ≠ true := by
    rw [attemptOk, hn]
    simp only [Bool.not_eq_true, decide_eq_false_iff_not]
    omega
  constructor
  · intro hmem
    exact hatt (claimableWhere_attemptOk (mem_getClaimableTasks hmem).2.1)
  · intro hmem
    exact hatt (feedbackWhere_attemptOk (mem_getFeedbackTasks.mp hmem).2.1)

/-- C8 witness: task M at `attempt_count = 3` with ceiling 3, otherwise fully
eligible, is excluded from both selectors. -/
theorem retry_ceiling_excludes_witness :
    taskM ∉ getClaimableTasks maxedStore cfgA 4000000 ∧
    taskM ∉ getFeedbackTasks maxedStore cfgA 4000000 :=
  retry_ceiling_excludes maxedStore cfgA 4000000 taskM 3 (by decide) (by decide)

/-! ### Claims about the feedback lifecycle -/

/-- C4 counterexample: the feedback-task error recorder does not clear
`feedback` — after `recordFeedbackError` on task F its feedback is still the
reviewer's text, not null/empty. -/
theorem feedback_error_keeps_feedback :
    ((recordFeedbackError mixedStore "F" "tool failed").tasks.find? fun t => t.id == "F").map
      Task.feedback = some (some "please fix") := by decide

/-- C4 (amended): `resolveTask` (the success path) nulls `feedback` for the
targeted task, while `recordFeedbackError` (the failure path) leaves every
task's `feedback` unchanged, so feedback is cleared only when the cycle ends
in success and an unaddressed submission is retried. -/
theorem feedback_cleared_only_on_resolve (s : Store)
    (taskId prUrl resolvedColumnId err : String) :
    (∀ u ∈ (resolveTask s taskId prUrl resolvedColumnId).tasks,
      u.id = taskId → u.feedback = none) ∧
    (recordFeedbackError s taskId err).tasks.map Task.feedback = s.tasks.map Task.feedback := by
  constructor
  · intro u hu hid
    simp only [resolveTask, List.mem_map] at hu
    obtain ⟨t0, ht0, hmap⟩ := hu
    by_cases hc : (t0.id == taskId) = true
    · rw [if_pos hc] at hmap
      rw [← hmap]
    · rw [if_neg hc] at hmap
      subst hmap
      exact absurd (by simp [hid]) hc
  · simp only [recordFeedbackError, List.map_map]
    apply List.map_congr_left
    intro t _
    by_cases hc : (t.id == taskId) = true
    · simp [hc, Function.comp]
    · simp [hc, Function.comp]

/-- C7: `recordFeedbackError` touches only the lease, `last_error` and
`attempt_count` of the targeted task: the column, `pr_url`, `feedback` and
all remaining fields are unchanged, other tasks and the other tables are
untouched. -/
theorem recordFeedbackError_frame (s : Store) (taskId err : String) :
    (recordFeedbackError s taskId err).projects = s.projects ∧
    (recordFeedbackError s taskId err).kanban_columns = s.kanban_columns ∧
    ∀ u ∈ (recordFeedbackError s taskId err).tasks, ∃ t, t ∈ s.tasks ∧
      (t.id ≠ taskId → u = t) ∧
      (t.id = taskId →
        u.claimed_at = none ∧ u.claimed_by = none ∧ u.last_error = some err ∧
        u.attempt_count = some (t.attempt_count.getD 0 + 1) ∧
        u.kanban_column_id = t.kanban_column_id ∧ u.pr_url = t.pr_url ∧
        u.feedback = t.feedback ∧ u.autoclaude_enabled = t.autoclaude_enabled ∧
        u.id = t.id ∧ u.text = t.text ∧
        u.status = t.status ∧ u.project_id = t.project_id ∧
        u.created_at = t.created_at) := by
  refine ⟨rfl, rfl, ?_⟩
  intro u hu
  simp only [recordFeedbackError, List.mem_map] at hu
  obtain ⟨t0, ht0, hmap⟩ := hu
  refine ⟨t0, ht0, ?_, ?_⟩
  · intro hne
    rw [if_neg (by simpa using hne)] at hmap
    exact hmap.symm
  · intro heq
    rw [if_pos (by simp [heq])] at hmap
    subst hmap
    exact ⟨rfl, rfl, rfl, rfl, rfl, rfl, rfl, rfl, rfl, rfl, rfl, rfl, rfl⟩

/-! ### Claims about the poll loop -/

/-- C6 counterexample: with the default 10000 ms interval, after the first
erroring cycle the backoff term is min(10000·2¹, 300000) = 20000 ms, but the
loop then waits 30000 ms — `main` adds the returned delay to the fixed poll
interval instead of waiting the backoff alone. -/
theorem backoff_adds_to_interval :
    pollBackoff cfgA 1 = 20000 ∧
    waitAfterCycle cfgA 0 true = 30000 ∧
    ¬ waitAfterCycle cfgA 0 true = pollBackoff cfgA 1 := by decide

/-- C6 (amended): after an erroring cycle with consecutive-error count e+1
(after incrementing), the wait is the fixed poll interval PLUS
min(base·2^(e+1), MAX_BACKOFF_MS); after a successful cycle the counter is 0
and the wait is exactly the fixed poll interval. -/
theorem backoff_wait_and_reset (cfg : Config) (e : Nat) :
    waitAfterCycle cfg e true =
      cfg.POLL_INTERVAL_MS + min (cfg.POLL_INTERVAL_MS * 2 ^ (e + 1)) MAX_BACKOFF_MS ∧
    (pollOutcome cfg e true).1 = e + 1 ∧
    waitAfterCycle cfg e false = cfg.POLL_INTERVAL_MS ∧
    (pollOutcome cfg e false).1 = 0 := by
  refine ⟨rfl, rfl, ?_, rfl⟩
  simp [waitAfterCycle, nextWait, pollOutcome]

/-- `runPhase` only ever appends events carrying its own phase tag. -/
theorem runPhase_trace (cfg : Config) (now : Nat) (isFb : Bool)
    (process : Task → Store → Store) :
    ∀ (ts : List Task) (s : Store) (tr : List PollEvent),
      ∃ l, (runPhase cfg now isFb process ts s tr).2 = tr ++ l ∧
        ∀ e ∈ l, e.isFeedback = isFb := by
  intro ts
  induction ts with
  | nil =>
    intro s tr
    exact ⟨[], by simp [runPhase], by simp⟩
  | cons t rest ih =>
    intro s tr
    simp only [runPhase]
    obtain ⟨l, hl, hall⟩ := ih _ (tr ++ [⟨t.id, isFb⟩])
    refine ⟨⟨t.id, isFb⟩ :: l, ?_, ?_⟩
    · rw [hl, List.append_assoc]
      rfl
    · intro e he
      rcases List.mem_cons.mp he with he | he
      · rw [he]
      · exact hall e he

/-- In a trace that is all-feedback events followed by all-new events, any
feedback event's index is below any new event's index. -/
theorem tagged_append_lt {tr l1 l2 : List PollEvent} (heq : tr = l1 ++ l2)
    (h1 : ∀ e ∈ l1, e.isFeedback = true) (h2 : ∀ e ∈ l2, e.isFeedback = false)
    {i j : Nat} (hi : i < tr.length) (hj : j < tr.length)
    (hfb : (tr.get ⟨i, hi⟩).isFeedback = true)
    (hnw : (tr.get ⟨j, hj⟩).isFeedback = false) : i < j := by
  subst heq
  rw [List.get_eq_getElem] at hfb hnw
  have hi1 : i < l1.length := by
    by_contra hge
    push_neg at hge
    rw [List.getElem_append_right hge] at hfb
    rw [h2 _ (List.getElem_mem _)] at hfb
    exact Bool.false_ne_true hfb
  have hj1 : l1.length ≤ j := by
    by_contra hlt
    push_neg at hlt
    rw [List.getElem_append_left hlt] at hnw
    rw [h1 _ (List.getElem_mem _)] at hnw
    exact absurd hnw (by simp)
  omega

/-- C9: within one poll cycle, every claim attempt issued for a task returned
by `getFeedbackTasks` occurs before every claim attempt issued for a task
returned by `getClaimableTasks`, whatever the worker does in between. -/
theorem feedback_claims_first (cfg : Config) (now : Nat)
    (processFeedbackTask processNewTask : Task → Store → Store) (s0 : Store) (i j : Nat)
    (hi : i < (pollCycle cfg now processFeedbackTask processNewTask s0).2.length)
    (hj : j < (pollCycle cfg now processFeedbackTask processNewTask s0).2.length)
    (hfb : ((pollCycle cfg now processFeedbackTask processNewTask s0).2.get
      ⟨i, hi⟩).isFeedback = true)
    (hnw : ((pollCycle cfg now processFeedbackTask processNewTask s0).2.get
      ⟨j, hj⟩).isFeedback = false) :
    i < j := by
  obtain ⟨l1, hl1, hall1⟩ :=
    runPhase_trace cfg now true processFeedbackTask (getFeedbackTasks s0 cfg now) s0 []
  obtain ⟨l2, hl2, hall2⟩ :=
    runPhase_trace cfg now false processNewTask
      (getClaimableTasks
        (runPhase cfg now true processFeedbackTask (getFeedbackTasks s0 cfg now) s0 []).1 cfg now)
      (runPhase cfg now true processFeedbackTask (getFeedbackTasks s0 cfg now) s0 []).1
      (runPhase cfg now true processFeedbackTask (getFeedbackTasks s0 cfg now) s0 []).2
  have heq : (pollCycle cfg now processFeedbackTask processNewTask s0).2 = l1 ++ l2 := by
    calc (pollCycle cfg now processFeedbackTask processNewTask s0).2
        = (runPhase cfg now false processNewTask
            (getClaimableTasks
              (runPhase cfg now true processFeedbackTask
                (getFeedbackTasks s0 cfg now) s0 []).1 cfg now)
            (runPhase cfg now true processFeedbackTask
              (getFeedbackTasks s0 cfg now) s0 []).1
            (runPhase cfg now true processFeedbackTask
              (getFeedbackTasks s0 cfg now) s0 []).2).2 := rfl
      _ = (runPhase cfg now true processFeedbackTask
            (getFeedbackTasks s0 cfg now) s0 []).2 ++ l2 := hl2
      _ = ([] ++ l1) ++ l2 := by rw [hl1]
      _ = l1 ++ l2 := by simp
  exact tagged_append_lt heq hall1 hall2 hi hj hfb hnw

/-- C9 witness: on the mixed store (one claimable feedback task F, one
claimable new task X) the cycle's claim-attempt trace is the feedback attempt
followed by the new-task attempt, and index 0 < index 1. -/
theorem feedback_claims_first_witness :
    ((pollCycle cfgA 4000000 (fun _ s => s) (fun _ s => s) mixedStore).2.map
      PollEvent.isFeedback = [true, false]) ∧ (0 : Nat) < 1 :=
  ⟨by decide,
   feedback_claims_first cfgA 4000000 (fun _ s => s) (fun _ s => s) mixedStore 0 1
     (by decide) (by decide) (by decide) (by decide)⟩

end AutoClaude
